import Mathlib

/-!
Shallow embedding of `src/Code/controller_coadaptive.py` and
`src/Code/controller_fixedcollins.py` (dephy_boot_interface).

Modelling conventions:
* Time values are `ℚ` (readings of Python's monotonic clock, in seconds).
  The two `time.monotonic()` reads inside one `check_time` call are modelled
  by a single `now` parameter (one instant per call); successive calls get
  successive `now` values, constrained only by monotonicity where a claim
  needs it.
* Commands issued to the left/right boots are recorded as a trace
  (`List Cmd`) in issue order; the store into `self.feedback_mode` is also
  recorded as a trace event so that the ordering of side effects is visible.
* Python exceptions are modelled with `Except PyError`.  Every reachable
  raise site in the translated code fires inside `check_time`, before any
  state mutation or actuator command of the call, so an `Except.error` result
  carries no state change and no commands.
* Python values flowing into the `use_torque == 1` test are modelled by
  `PyVal`, with `==` as Python equality (numeric across `int`/`float`/`bool`:
  `1 == 1.0 == True`; strings never equal `1`).
-/

/-- The two actuators (exoskeleton boots). -/
inductive Side
  | left
  | right
deriving DecidableEq

/-- A Python value as it can reach `trial_handler`'s arguments. -/
inductive PyVal
  | int (n : ℤ)
  | float (q : ℚ)
  | bool (b : Bool)
  | str (s : String)
deriving DecidableEq

/-- Python `v == 1`: numeric equality across `int`, `float` and `bool`
(`1 == 1.0 == True` in Python); strings are never equal to `1`. -/
def pyEqOne : PyVal → Bool
  | PyVal.int n => n == 1
  | PyVal.float q => q == 1
  | PyVal.bool b => b
  | PyVal.str _ => false

/-- A Python exception raised by the translated code. -/
inductive PyError
  | typeError (msg : String)
  | indexError (msg : String)
deriving DecidableEq

/-- One observable side effect of a controller call, in issue order: a command
sent to a boot, or the dispatcher's store of the feedback mode (observable by
the external audio/feedback program). -/
inductive Cmd
  | init_collins_profile (side : Side) (mass rspg opg ppg spg ot npt : ℚ)
  | set_feedback_mode (v : PyVal)
  | read_data (side : Side)
  | run_collins_profile (side : Side) (external_read : Bool)
  | zero_current (side : Side)
  | clear_gait_estimate (side : Side)
deriving DecidableEq

/-- Instance state of a controller object (`Coadaptive` / `FixedCollins`):
`self.user_mass`, `self.start_time` and `self.feedback_mode`.  The boot and
EMG handles are external collaborators, represented by the command trace. -/
structure CtrlState where
  user_mass : ℚ
  start_time : ℚ
  feedback_mode : PyVal
deriving DecidableEq

/-- A Python argument that is either a bare scalar or a list: the source
passes `10` / `-1` / `1` (scalars) for the single-segment protocols and
`[5, 5]` / `[0, 1]` / `[1, 1]` (lists) for the guided protocol. -/
inductive PyArg (α : Type)
  | scalar (x : α)
  | ofList (l : List α)
deriving DecidableEq

/-- Helper for `np.cumsum`: running partial sums from an accumulator. -/
def cumsumFrom (acc : ℚ) : List ℚ → List ℚ
  | [] => []
  | x :: xs => (acc + x) :: cumsumFrom (acc + x) xs

/-- Translation of `np.cumsum`: the list of running partial sums. -/
def cumsum (l : List ℚ) : List ℚ := cumsumFrom 0 l

/-- The pure part of `check_time`: from the segment durations (minutes) and
the elapsed time (seconds), the index of the current segment, `-1` when the
trial has ended.  Mirrors the source line by line:
`segment_sec = [x * 60 for x in segment_min]`,
`time_points = np.cumsum(segment_sec)`,
`time_passed = time_elapsed > time_points`,
`not_passed = [i for i, val in enumerate(time_passed) if not val]`,
then the head of `not_passed`, or `-1` when it is empty. -/
def check_time_core (segment_min : List ℚ) (time_elapsed : ℚ) : Int :=
  let segment_sec := segment_min.map (fun x => x * 60)
  let time_points := cumsum segment_sec
  let time_passed := time_points.map (fun t => decide (time_elapsed > t))
  let not_passed := (time_passed.enum.filter (fun p => !p.2)).map (fun p => p.1)
  match not_passed with
  | [] => -1
  | i :: _ => (i : Int)

/-- Translation of `Coadaptive.check_time`.  `segment_min` may be a bare scalar, as passed by
`free_training` and `testing`; the comprehension `[x * 60 for x in
segment_min]` then raises `TypeError` at once, before the restart branch and
before `start_time` is touched.  `now` is the monotonic clock value during the
call. -/
def Coadaptive.check_time (s : CtrlState) (segment_min : PyArg ℚ)
    (restart_trial : Bool) (now : ℚ) : Except PyError (CtrlState × Int) :=
  match segment_min with
  | PyArg.scalar _ => Except.error (PyError.typeError "int object is not iterable")
  | PyArg.ofList l =>
    let s1 := if restart_trial then { s with start_time := now } else s
    let time_elapsed := now - s1.start_time
    Except.ok (s1, check_time_core l time_elapsed)

/-- Python subscript `arg[i]` on a scalar-or-list of integers: subscripting a
scalar raises `TypeError`; a list uses Python indexing (negative indices count
from the end) and raises `IndexError` when out of range. -/
def pySubscript (arg : PyArg ℤ) (i : Int) : Except PyError ℤ :=
  match arg with
  | PyArg.scalar _ => Except.error (PyError.typeError "int object is not subscriptable")
  | PyArg.ofList l =>
    let j := if i < 0 then i + l.length else i
    if h : 0 ≤ j ∧ j.toNat < l.length then Except.ok (l.get ⟨j.toNat, h.2⟩)
    else Except.error (PyError.indexError "list index out of range")

/-- Translation of `Coadaptive.trial_handler`: store the feedback mode (for the external
audio program), read both boots, then run the Collins profile on both boots
when `use_torque == 1` (Python equality) and zero the current on both boots
otherwise. -/
def Coadaptive.trial_handler (s : CtrlState) (feedback_mode : PyVal)
    (use_torque : PyVal) : CtrlState × List Cmd :=
  ({ s with feedback_mode := feedback_mode },
    [Cmd.set_feedback_mode feedback_mode, Cmd.read_data Side.left, Cmd.read_data Side.right] ++
      (if pyEqOne use_torque then
        [Cmd.run_collins_profile Side.left true, Cmd.run_collins_profile Side.right true]
      else
        [Cmd.zero_current Side.left, Cmd.zero_current Side.right]))

/-- The method body that `free_training`, `guided_training` and `testing`
share verbatim in the source: query `check_time`, clear the gait estimate on
both boots on a restart, then either subscript the per-segment tables and
dispatch through `trial_handler` (returning `True`) or zero the current on
both boots (returning `False`).  A raised exception propagates to the caller;
every reachable raise fires inside `check_time`, before any actuator
command. -/
def protocol_body (s : CtrlState) (restart_trial : Bool) (now : ℚ)
    (segment_min : PyArg ℚ) (feedback_mode : PyArg ℤ) (use_torque : PyArg ℤ) :
    Except PyError (CtrlState × List Cmd × Bool) :=
  match Coadaptive.check_time s segment_min restart_trial now with
  | Except.error e => Except.error e
  | Except.ok (s1, current_idx) =>
    let clear_cmds := if restart_trial then
        [Cmd.clear_gait_estimate Side.left, Cmd.clear_gait_estimate Side.right]
      else []
    if current_idx ≠ -1 then
      match pySubscript feedback_mode current_idx, pySubscript use_torque current_idx with
      | Except.error e, _ => Except.error e
      | _, Except.error e => Except.error e
      | Except.ok fm, Except.ok ut =>
        let p := Coadaptive.trial_handler s1 (PyVal.int fm) (PyVal.int ut)
        Except.ok (p.1, clear_cmds ++ p.2, true)
    else
      Except.ok (s1, clear_cmds ++ [Cmd.zero_current Side.left, Cmd.zero_current Side.right],
        false)

/-- Translation of `Coadaptive.free_training`: `segment_min = 10`, `feedback_mode = -1`,
`use_torque = 1` — all three bare scalars in the source, not one-element
lists. -/
def Coadaptive.free_training (s : CtrlState) (restart_trial : Bool) (now : ℚ) :
    Except PyError (CtrlState × List Cmd × Bool) :=
  protocol_body s restart_trial now (PyArg.scalar 10) (PyArg.scalar (-1)) (PyArg.scalar 1)

/-- Translation of `Coadaptive.guided_training`: `segment_min = [5, 5]`,
`feedback_mode = [0, 1]` (metronome then strategy), `use_torque = [1, 1]`. -/
def Coadaptive.guided_training (s : CtrlState) (restart_trial : Bool) (now : ℚ) :
    Except PyError (CtrlState × List Cmd × Bool) :=
  protocol_body s restart_trial now (PyArg.ofList [5, 5]) (PyArg.ofList [0, 1])
    (PyArg.ofList [1, 1])

/-- Translation of `Coadaptive.testing`: `segment_min = 30`, `feedback_mode = -1`,
`use_torque = 1` — bare scalars in the source, like `free_training`. -/
def Coadaptive.testing (s : CtrlState) (restart_trial : Bool) (now : ℚ) :
    Except PyError (CtrlState × List Cmd × Bool) :=
  protocol_body s restart_trial now (PyArg.scalar 30) (PyArg.scalar (-1)) (PyArg.scalar 1)

/-- Translation of `Coadaptive.__init__`: record the user mass, initialize `start_time` to
the construction-time clock value and `feedback_mode` to `-1`, and send the
Zhang/Collins profile parameters (`rspg = 0`, `opg = 27.1`, `ppg = 52.4`,
`spg = 62.7`, `ot = 2`, `npt = 0.175`) to both boots. -/
def Coadaptive.init (user_mass : ℚ) (now : ℚ) : CtrlState × List Cmd :=
  ({ user_mass := user_mass, start_time := now, feedback_mode := PyVal.int (-1) },
    [Cmd.init_collins_profile Side.left user_mass 0 27.1 52.4 62.7 2 0.175,
     Cmd.init_collins_profile Side.right user_mass 0 27.1 52.4 62.7 2 0.175])

/-- Translation of `FixedCollins.check_time` — textually identical to `Coadaptive.check_time`
in the source. -/
def FixedCollins.check_time (s : CtrlState) (segment_min : PyArg ℚ)
    (restart_trial : Bool) (now : ℚ) : Except PyError (CtrlState × Int) :=
  match segment_min with
  | PyArg.scalar _ => Except.error (PyError.typeError "int object is not iterable")
  | PyArg.ofList l =>
    let s1 := if restart_trial then { s with start_time := now } else s
    let time_elapsed := now - s1.start_time
    Except.ok (s1, check_time_core l time_elapsed)

/-- Modelled from the spec: `src/Code/controller_fixedcollins.py` breaks off
mid-statement at line 96, `self.left_boot.run` — a prefix of
`self.left_boot.run_collins_profile(external_read = True)` in the parallel
class — so the remainder of `FixedCollins.trial_handler` (the completion of
the torque branch on both boots and the `else` branch zeroing current on both
boots) is missing from the file.  That missing tail is modelled here from the
spec (§4.2 PhaseDispatcher, and the design note that the co-adaptive
controller "in practice behaves identically to the fixed-profile
controller").  The part present in the source — storing the feedback mode,
reading both boots, the `use_torque == 1` test — is translated from the
source. -/
def FixedCollins.trial_handler (s : CtrlState) (feedback_mode : PyVal)
    (use_torque : PyVal) : CtrlState × List Cmd :=
  ({ s with feedback_mode := feedback_mode },
    [Cmd.set_feedback_mode feedback_mode, Cmd.read_data Side.left, Cmd.read_data Side.right] ++
      (if pyEqOne use_torque then
        [Cmd.run_collins_profile Side.left true, Cmd.run_collins_profile Side.right true]
      else
        [Cmd.zero_current Side.left, Cmd.zero_current Side.right]))

/-- The spec's segment selector (§4.1 step 4), written from the spec's words:
the smallest `i` with `elapsed < T_i` (strict upper boundary), `-1` (`ENDED`)
when none exists. -/
def spec_current_segment_strict (time_points : List ℚ) (elapsed : ℚ) : Int :=
  match (List.range time_points.length).find?
      (fun i => decide (elapsed < time_points.getD i 0)) with
  | some i => (i : Int)
  | none => -1

/-- The amended segment selector: the smallest `i` with `elapsed ≤ T_i`
(inclusive upper boundary), `-1` when none exists. -/
def spec_current_segment_le (time_points : List ℚ) (elapsed : ℚ) : Int :=
  match (List.range time_points.length).find?
      (fun i => decide (elapsed ≤ time_points.getD i 0)) with
  | some i => (i : Int)
  | none => -1

/-- The first position of the list whose element is `≥ e`, as an
`Option Nat` — the recursion the proofs below induct on. -/
def firstLeAux (e : ℚ) : List ℚ → Option Nat
  | [] => none
  | t :: ts => if e ≤ t then some 0 else (firstLeAux e ts).map (fun i => i + 1)

lemma filtered_enumFrom_head (e : ℚ) (k : Nat) (pts : List ℚ) :
    ((((pts.map (fun t => decide (e > t))).enumFrom k).filter
        (fun p => !p.2)).map (fun p => p.1)).head? =
      (firstLeAux e pts).map (fun i => i + k) := by
  induction pts generalizing k with
  | nil => simp [firstLeAux]
  | cons t ts ih =>
    by_cases h : e ≤ t
    · have hd : decide (e > t) = false := by
        simp only [decide_eq_false_iff_not, not_lt]
        exact h
      simp [List.enumFrom_cons, List.filter_cons, hd, firstLeAux, h]
    · have hd : decide (e > t) = true := by
        simp only [decide_eq_true_eq, gt_iff_lt]
        exact lt_of_not_le h
      rw [List.map_cons, List.enumFrom_cons, List.filter_cons]
      simp only [hd, Bool.not_true, Bool.false_eq_true, if_false, firstLeAux, if_neg h]
      rw [ih (k + 1)]
      cases firstLeAux e ts with
      | none => simp
      | some i => simp; omega

lemma check_time_core_eq_firstLeAux (segment_min : List ℚ) (e : ℚ) :
    check_time_core segment_min e =
      match firstLeAux e (cumsum (segment_min.map (fun x => x * 60))) with
      | some i => (i : Int)
      | none => -1 := by
  have h := filtered_enumFrom_head e 0 (cumsum (segment_min.map (fun x => x * 60)))
  simp only [Nat.add_zero, Option.map_id'] at h
  simp only [check_time_core, List.enum]
  split
  · next heq =>
      rw [heq, List.head?_nil] at h
      rw [← h]
  · next i rest heq =>
      rw [heq, List.head?_cons] at h
      rw [← h]

lemma find?_range_le_eq_firstLeAux (e : ℚ) (pts : List ℚ) :
    (List.range pts.length).find? (fun i => decide (e ≤ pts.getD i 0)) =
      firstLeAux e pts := by
  induction pts with
  | nil => simp [firstLeAux]
  | cons t ts ih =>
    rw [List.length_cons, List.range_succ_eq_map, List.find?_cons]
    by_cases h : e ≤ t
    · simp [h, firstLeAux]
    · simp only [List.getD_cons_zero, decide_eq_true_eq, h, if_neg, decide_eq_false h,
        firstLeAux]
      rw [List.find?_map]
      simp only [Function.comp_def, List.getD_cons_succ] at *
      rw [ih]
      rfl

lemma spec_current_segment_le_eq (e : ℚ) (pts : List ℚ) :
    spec_current_segment_le pts e =
      match firstLeAux e pts with
      | some i => (i : Int)
      | none => -1 := by
  unfold spec_current_segment_le
  rw [find?_range_le_eq_firstLeAux]

lemma length_cumsumFrom (acc : ℚ) (l : List ℚ) :
    (cumsumFrom acc l).length = l.length := by
  induction l generalizing acc with
  | nil => rfl
  | cons x xs ih => simp [cumsumFrom, ih]

lemma cumsumFrom_mem_le_sum (l : List ℚ) (acc : ℚ) (hn : ∀ x ∈ l, 0 ≤ x) :
    ∀ t ∈ cumsumFrom acc l, t ≤ acc + l.sum := by
  induction l generalizing acc with
  | nil => simp [cumsumFrom]
  | cons x xs ih =>
    intro t ht
    have hxs : ∀ y ∈ xs, 0 ≤ y := fun y hy => hn y (List.mem_cons_of_mem x hy)
    have hsum : 0 ≤ xs.sum := List.sum_nonneg hxs
    rcases List.mem_cons.mp ht with h1 | h1
    · subst h1
      simp only [List.sum_cons]
      linarith
    · have := ih (acc + x) hxs t h1
      simp only [List.sum_cons]
      linarith

lemma cumsumFrom_mem_gt (l : List ℚ) (acc : ℚ) (hp : ∀ x ∈ l, 0 < x) :
    ∀ t ∈ cumsumFrom acc l, acc < t := by
  induction l generalizing acc with
  | nil => simp [cumsumFrom]
  | cons x xs ih =>
    intro t ht
    have hx : 0 < x := hp x (List.mem_cons_self x xs)
    have hxs : ∀ y ∈ xs, 0 < y := fun y hy => hp y (List.mem_cons_of_mem x hy)
    rcases List.mem_cons.mp ht with h1 | h1
    · subst h1; linarith
    · have := ih (acc + x) hxs t h1
      linarith

lemma firstLeAux_eq_none_of_all_lt (e : ℚ) (pts : List ℚ)
    (h : ∀ t ∈ pts, t < e) : firstLeAux e pts = none := by
  induction pts with
  | nil => rfl
  | cons t ts ih =>
    have ht : t < e := h t (List.mem_cons_self t ts)
    have hts := ih (fun u hu => h u (List.mem_cons_of_mem t hu))
    simp [firstLeAux, not_le.mpr ht, hts]

lemma firstLeAux_at_boundary (l : List ℚ) (acc : ℚ) (hp : ∀ x ∈ l, 0 < x) :
    ∀ i : Nat, i < l.length →
      firstLeAux ((cumsumFrom acc l).getD i 0) (cumsumFrom acc l) = some i := by
  induction l generalizing acc with
  | nil => intro i hi; exact absurd hi (Nat.not_lt_zero i)
  | cons x xs ih =>
    intro i hi
    have hx : 0 < x := hp x (List.mem_cons_self x xs)
    have hxs : ∀ y ∈ xs, 0 < y := fun y hy => hp y (List.mem_cons_of_mem x hy)
    cases i with
    | zero =>
      simp [cumsumFrom, firstLeAux]
    | succ j =>
      have hj : j < xs.length := by
        have := hi
        simp only [cumsumFrom, List.length_cons] at this ⊢
        omega
      have hjlen : j < (cumsumFrom (acc + x) xs).length := by
        rw [length_cumsumFrom]; exact hj
      have hmem : (cumsumFrom (acc + x) xs).getD j 0 ∈ cumsumFrom (acc + x) xs := by
        rw [List.getD_eq_getElem _ _ hjlen]
        exact List.getElem_mem hjlen
      have hgt : acc + x < (cumsumFrom (acc + x) xs).getD j 0 :=
        cumsumFrom_mem_gt xs (acc + x) hxs _ hmem
      have hrec := ih (acc + x) hxs j hj
      simp only [cumsumFrom, List.getD_cons_succ, firstLeAux, if_neg (not_le.mpr hgt), hrec]
      rfl

lemma check_time_core_guided (e : ℚ) :
    check_time_core [5, 5] e = if e ≤ 300 then 0 else if e ≤ 600 then 1 else -1 := by
  rw [check_time_core_eq_firstLeAux]
  have hpts : cumsum (([5, 5] : List ℚ).map (fun x => x * 60)) = [300, 600] := by
    norm_num [cumsum, cumsumFrom]
  rw [hpts]
  by_cases h1 : e ≤ 300
  · simp [firstLeAux, h1]
  · by_cases h2 : e ≤ 600
    · simp [firstLeAux, h1, h2]
    · simp [firstLeAux, h1, h2]

lemma pySubscript_fm_zero : pySubscript (PyArg.ofList [0, 1]) 0 = Except.ok 0 := rfl

lemma pySubscript_fm_one : pySubscript (PyArg.ofList [0, 1]) 1 = Except.ok 1 := rfl

lemma pySubscript_ut_zero : pySubscript (PyArg.ofList [1, 1]) 0 = Except.ok 1 := rfl

lemma pySubscript_ut_one : pySubscript (PyArg.ofList [1, 1]) 1 = Except.ok 1 := rfl

lemma guided_training_closed (s : CtrlState) (restart_trial : Bool) (now : ℚ) :
    Coadaptive.guided_training s restart_trial now =
      (let s1 := if restart_trial then { s with start_time := now } else s
       let e := now - s1.start_time
       let cg := if restart_trial then
           [Cmd.clear_gait_estimate Side.left, Cmd.clear_gait_estimate Side.right]
         else []
       if e ≤ 300 then
         Except.ok ({ s1 with feedback_mode := PyVal.int 0 },
           cg ++ [Cmd.set_feedback_mode (PyVal.int 0), Cmd.read_data Side.left,
             Cmd.read_data Side.right, Cmd.run_collins_profile Side.left true,
             Cmd.run_collins_profile Side.right true], true)
       else if e ≤ 600 then
         Except.ok ({ s1 with feedback_mode := PyVal.int 1 },
           cg ++ [Cmd.set_feedback_mode (PyVal.int 1), Cmd.read_data Side.left,
             Cmd.read_data Side.right, Cmd.run_collins_profile Side.left true,
             Cmd.run_collins_profile Side.right true], true)
       else
         Except.ok (s1, cg ++ [Cmd.zero_current Side.left, Cmd.zero_current Side.right],
           false)) := by
  cases restart_trial with
  | true =>
    norm_num [Coadaptive.guided_training, protocol_body, Coadaptive.check_time,
      check_time_core_guided, pySubscript_fm_zero, pySubscript_ut_zero,
      Coadaptive.trial_handler, pyEqOne]
  | false =>
    by_cases h1 : now - s.start_time ≤ 300
    · norm_num [Coadaptive.guided_training, protocol_body, Coadaptive.check_time,
        check_time_core_guided, pySubscript_fm_zero, pySubscript_ut_zero,
        Coadaptive.trial_handler, pyEqOne, h1]
    · by_cases h2 : now - s.start_time ≤ 600
      · norm_num [Coadaptive.guided_training, protocol_body, Coadaptive.check_time,
          check_time_core_guided, pySubscript_fm_one, pySubscript_ut_one,
          Coadaptive.trial_handler, pyEqOne, h1, h2]
      · norm_num [Coadaptive.guided_training, protocol_body, Coadaptive.check_time,
          check_time_core_guided, Coadaptive.trial_handler, pyEqOne, h1, h2]

lemma sum_map_mul60 (l : List ℚ) : (l.map (fun x => x * 60)).sum = 60 * l.sum := by
  induction l with
  | nil => simp
  | cons x xs ih =>
    simp only [List.map_cons, List.sum_cons, ih]
    ring

lemma check_time_core_ended_of_gt (plan : List ℚ) (e : ℚ)
    (hpos : ∀ x ∈ plan, 0 < x) (he : 60 * plan.sum < e) :
    check_time_core plan e = -1 := by
  rw [check_time_core_eq_firstLeAux]
  have hnone : firstLeAux e (cumsum (plan.map (fun x => x * 60))) = none := by
    apply firstLeAux_eq_none_of_all_lt
    intro t ht
    have hn : ∀ x ∈ plan.map (fun x => x * 60), 0 ≤ x := by
      intro x hx
      obtain ⟨y, hy, rfl⟩ := List.mem_map.mp hx
      have := hpos y hy
      linarith
    have hle : t ≤ 0 + (plan.map (fun x => x * 60)).sum :=
      cumsumFrom_mem_le_sum (plan.map (fun x => x * 60)) 0 hn t ht
    rw [zero_add, sum_map_mul60] at hle
    linarith
  rw [hnone]

/-- C1: the free-exploration scenario cannot hold as stated: because the
source passes the bare scalar `10` as `segment_min`, the comprehension inside
`check_time` raises `TypeError` on every `free_training` call — including the
first call with `restart_trial = true` — before any feedback-mode store or
actuator command. -/
theorem free_training_always_raises (s : CtrlState) (restart_trial : Bool) (now : ℚ) :
    Coadaptive.free_training s restart_trial now =
      Except.error (PyError.typeError "int object is not iterable") := rfl

lemma spec_strict_two (a b e : ℚ) :
    spec_current_segment_strict [a, b] e =
      if e < a then 0 else if e < b then 1 else -1 := by
  unfold spec_current_segment_strict
  have h2 : List.range ([a, b] : List ℚ).length = [0, 1] := rfl
  rw [h2]
  by_cases h1 : e < a
  · simp [List.find?, h1]
  · by_cases hb : e < b
    · simp [List.find?, h1, hb]
    · simp [List.find?, h1, hb]

lemma check_time_core_single (d e : ℚ) :
    check_time_core [d] e = if e ≤ d * 60 then 0 else -1 := by
  rw [check_time_core_eq_firstLeAux]
  have hpts : cumsum (([d] : List ℚ).map (fun x => x * 60)) = [d * 60] := by
    simp [cumsum, cumsumFrom]
  rw [hpts]
  by_cases h : e ≤ d * 60
  · simp [firstLeAux, h]
  · simp [firstLeAux, h]

/-- C2 counterexample: for the guided plan `[5, 5]` at elapsed time exactly
300 s (the internal boundary `T_0`), the code returns segment `0`, while the
claimed strict-less-than rule selects segment `1`. -/
theorem check_time_strict_boundary_counterexample :
    check_time_core [5, 5] 300 = 0 ∧
    spec_current_segment_strict (cumsum (([5, 5] : List ℚ).map (fun x => x * 60))) 300 = 1 := by
  have hpts : cumsum (([5, 5] : List ℚ).map (fun x => x * 60)) = [300, 600] := by
    norm_num [cumsum, cumsumFrom]
  constructor
  · rw [check_time_core_guided]
    norm_num
  · rw [hpts, spec_strict_two]
    norm_num

/-- C2 (amended): `check_time` returns the smallest index `i` with
`elapsed ≤ T_i` — the upper boundary is inclusive, not strict — and in
particular, at an elapsed time exactly equal to the cumulative boundary
`T_i` of a positive-duration plan, the active segment is `i`, not `i + 1`. -/
theorem check_time_inclusive_boundary (plan : List ℚ) (e : ℚ)
    (hpos : ∀ x ∈ plan, 0 < x) :
    check_time_core plan e =
      spec_current_segment_le (cumsum (plan.map (fun x => x * 60))) e ∧
    ∀ i : Nat, i < plan.length →
      check_time_core plan ((cumsum (plan.map (fun x => x * 60))).getD i 0) = (i : Int) := by
  constructor
  · rw [check_time_core_eq_firstLeAux, spec_current_segment_le_eq]
  · intro i hi
    rw [check_time_core_eq_firstLeAux]
    have hp60 : ∀ x ∈ plan.map (fun x => x * 60), 0 < x := by
      intro x hx
      obtain ⟨y, hy, rfl⟩ := List.mem_map.mp hx
      have := hpos y hy
      linarith
    have hi60 : i < (plan.map (fun x => x * 60)).length := by
      rw [List.length_map]; exact hi
    have hb := firstLeAux_at_boundary (plan.map (fun x => x * 60)) 0 hp60 i hi60
    unfold cumsum
    rw [hb]

/-- C2 witness: the amended boundary rule instantiated on the guided plan
`[5, 5]` at elapsed time 300 s. -/
theorem check_time_inclusive_boundary_witness :
    (∀ x ∈ ([5, 5] : List ℚ), 0 < x) ∧
    (check_time_core [5, 5] 300 =
        spec_current_segment_le (cumsum (([5, 5] : List ℚ).map (fun x => x * 60))) 300 ∧
      ∀ i : Nat, i < ([5, 5] : List ℚ).length →
        check_time_core [5, 5] ((cumsum (([5, 5] : List ℚ).map (fun x => x * 60))).getD i 0) =
          (i : Int)) :=
  ⟨by norm_num, check_time_inclusive_boundary [5, 5] 300 (by norm_num)⟩

/-- C3 counterexample: for the plan `[10]` at elapsed time exactly 600 s — the
sum of all durations — the code still returns segment `0`, not the `ENDED`
sentinel `-1` that the claim requires for every `elapsed ≥ sum`. -/
theorem check_time_ended_counterexample :
    60 * ([10] : List ℚ).sum = 600 ∧ check_time_core [10] 600 = 0 := by
  constructor
  · norm_num
  · rw [check_time_core_single]
    norm_num

/-- C3 (amended): once the elapsed time strictly exceeds the total duration of
a positive-duration plan (in seconds), `check_time` returns the `ENDED`
sentinel `-1`, and keeps returning `-1` for every larger elapsed time. -/
theorem check_time_ended_monotone (plan : List ℚ) (e : ℚ)
    (hpos : ∀ x ∈ plan, 0 < x) (he : 60 * plan.sum < e) :
    check_time_core plan e = -1 ∧
      ∀ e2 : ℚ, e ≤ e2 → check_time_core plan e2 = -1 :=
  ⟨check_time_core_ended_of_gt plan e hpos he,
    fun e2 he2 => check_time_core_ended_of_gt plan e2 hpos (lt_of_lt_of_le he he2)⟩

/-- C3 witness: monotone terminality instantiated on the guided plan `[5, 5]`
at elapsed time 601 s. -/
theorem check_time_ended_monotone_witness :
    ((∀ x ∈ ([5, 5] : List ℚ), 0 < x) ∧ 60 * ([5, 5] : List ℚ).sum < 601) ∧
    (check_time_core [5, 5] 601 = -1 ∧
      ∀ e2 : ℚ, 601 ≤ e2 → check_time_core [5, 5] e2 = -1) :=
  ⟨⟨by norm_num, by norm_num⟩,
    check_time_ended_monotone [5, 5] 601 (by norm_num) (by norm_num)⟩

/-- C4: with `restart_trial = true`, `guided_training` resets `start_time` to
the current clock value (so the measured elapsed time is 0) and clears the
gait estimate on both boots before dispatching segment 0 — but `testing`
(like `free_training`) raises `TypeError` before either effect, because its
scalar `segment_min` is not iterable, so the claim fails for two of the three
entry points. -/
theorem restart_resets_and_clears (s : CtrlState) (now : ℚ) :
    Coadaptive.guided_training s true now =
      Except.ok ({ s with start_time := now, feedback_mode := PyVal.int 0 },
        [Cmd.clear_gait_estimate Side.left, Cmd.clear_gait_estimate Side.right,
         Cmd.set_feedback_mode (PyVal.int 0), Cmd.read_data Side.left,
         Cmd.read_data Side.right, Cmd.run_collins_profile Side.left true,
         Cmd.run_collins_profile Side.right true], true) ∧
    Coadaptive.testing s true now =
      Except.error (PyError.typeError "int object is not iterable") := by
  constructor
  · rw [guided_training_closed]
    norm_num
  · rfl

lemma guided_training_ended_inv (s : CtrlState) (restart_trial : Bool) (t : ℚ)
    (out : CtrlState × List Cmd × Bool)
    (h : Coadaptive.guided_training s restart_trial t = Except.ok out)
    (hend : out.2.2 = false) :
    out = (s, [Cmd.zero_current Side.left, Cmd.zero_current Side.right], false) ∧
      600 < t - s.start_time := by
  rw [guided_training_closed] at h
  cases restart_trial with
  | true =>
    norm_num [sub_self] at h
    rw [← h] at hend
    norm_num at hend
  | false =>
    norm_num at h
    split_ifs at h with h1 h2
    · simp only [Except.ok.injEq] at h
      rw [← h] at hend
      norm_num at hend
    · simp only [Except.ok.injEq] at h
      rw [← h] at hend
      norm_num at hend
    · simp only [Except.ok.injEq] at h
      refine ⟨h.symm, ?_⟩
      linarith

lemma guided_training_ended_run (s : CtrlState) (t : ℚ)
    (hgt : 600 < t - s.start_time) :
    Coadaptive.guided_training s false t =
      Except.ok (s, [Cmd.zero_current Side.left, Cmd.zero_current Side.right], false) := by
  rw [guided_training_closed]
  have h1 : ¬(t - s.start_time ≤ 300) := by linarith
  have h2 : ¬(t - s.start_time ≤ 600) := by linarith
  norm_num [h1, h2]

/-- C5: once `guided_training` has returned `false`, every later call with
`restart_trial = false` (at any clock value not before the ended tick) again
returns `false`, leaves the instance state unchanged and issues exactly the
zero-current commands on both boots: the ended state is stable under
`restart = false` polling. -/
theorem guided_training_terminal_stable (s : CtrlState) (restart_trial : Bool)
    (t t2 : ℚ) (out : CtrlState × List Cmd × Bool)
    (h : Coadaptive.guided_training s restart_trial t = Except.ok out)
    (hend : out.2.2 = false) (ht : t ≤ t2) :
    Coadaptive.guided_training out.1 false t2 =
      Except.ok (out.1, [Cmd.zero_current Side.left, Cmd.zero_current Side.right],
        false) := by
  obtain ⟨hout, hgt⟩ := guided_training_ended_inv s restart_trial t out h hend
  have h1 : out.1 = s := by rw [hout]
  rw [h1]
  exact guided_training_ended_run s t2 (by linarith)

/-- C5 witness: a trial that ended at clock 601 (start time 0) stays ended and
keeps zeroing current at clock 602. -/
theorem guided_training_terminal_stable_witness :
    ((601 : ℚ) ≤ 602) ∧
    Coadaptive.guided_training (⟨70, 0, PyVal.int 1⟩ : CtrlState) false 602 =
      Except.ok ((⟨70, 0, PyVal.int 1⟩ : CtrlState),
        [Cmd.zero_current Side.left, Cmd.zero_current Side.right], false) :=
  ⟨by norm_num,
    guided_training_terminal_stable ⟨70, 0, PyVal.int 1⟩ false 601 602
      ((⟨70, 0, PyVal.int 1⟩ : CtrlState),
        [Cmd.zero_current Side.left, Cmd.zero_current Side.right], false)
      (guided_training_ended_run ⟨70, 0, PyVal.int 1⟩ 601 (by norm_num)) rfl
      (by norm_num)⟩

/-- C6: `trial_handler` first stores the feedback mode, then reads both boots
— also when torque will not be applied — and finally either runs the Collins
profile on both boots (torque enabled: Python `True`, or the integer `1` the
protocols pass) or zeroes the current on both boots. -/
theorem trial_handler_dispatch_order (s : CtrlState) (fm : PyVal)
    (apply_torque : Bool) :
    Coadaptive.trial_handler s fm (PyVal.bool apply_torque) =
      ({ s with feedback_mode := fm },
        [Cmd.set_feedback_mode fm, Cmd.read_data Side.left, Cmd.read_data Side.right] ++
          (if apply_torque then
            [Cmd.run_collins_profile Side.left true, Cmd.run_collins_profile Side.right true]
          else
            [Cmd.zero_current Side.left, Cmd.zero_current Side.right])) ∧
    Coadaptive.trial_handler s fm (PyVal.int (if apply_torque then 1 else 0)) =
      ({ s with feedback_mode := fm },
        [Cmd.set_feedback_mode fm, Cmd.read_data Side.left, Cmd.read_data Side.right] ++
          (if apply_torque then
            [Cmd.run_collins_profile Side.left true, Cmd.run_collins_profile Side.right true]
          else
            [Cmd.zero_current Side.left, Cmd.zero_current Side.right])) := by
  cases apply_torque <;> exact ⟨rfl, rfl⟩

/-- C7: the two controller classes agree, input for input and state for state:
`check_time` returns the same segment index and the same state in both, and
`trial_handler` — with the tail missing from the truncated `FixedCollins`
source modelled from the spec — issues the same commands in the same order and
leaves the same instance state. -/
theorem fixedcollins_equiv_coadaptive (s : CtrlState) (segment_min : PyArg ℚ)
    (restart_trial : Bool) (now : ℚ) (fm ut : PyVal) :
    FixedCollins.check_time s segment_min restart_trial now =
      Coadaptive.check_time s segment_min restart_trial now ∧
    FixedCollins.trial_handler s fm ut = Coadaptive.trial_handler s fm ut :=
  ⟨rfl, rfl⟩

/-- C8 counterexample: constructing a controller at clock 0 and immediately
calling `guided_training` with `restart_trial = false` — before any call with
`restart_trial = true` — is not rejected: the call succeeds, dispatches
segment 0 and returns `true` instead of an error result. -/
theorem advance_without_restart_not_rejected :
    Coadaptive.guided_training (Coadaptive.init 70 0).1 false 0 =
      Except.ok ({ user_mass := 70, start_time := 0, feedback_mode := PyVal.int 0 },
        [Cmd.set_feedback_mode (PyVal.int 0), Cmd.read_data Side.left,
         Cmd.read_data Side.right, Cmd.run_collins_profile Side.left true,
         Cmd.run_collins_profile Side.right true], true) := by
  rw [guided_training_closed]
  norm_num [Coadaptive.init]

/-- C8 (amended): a `restart_trial = false` call before any restart is not
rejected: `__init__` already set `start_time` to the construction-time clock
value, so elapsed time is measured from construction, and while it lies within
the first segment the call dispatches segment 0 and returns `true`. -/
theorem advance_without_restart_measures_from_construction (mass t0 t : ℚ)
    (h : t - t0 ≤ 300) :
    Coadaptive.guided_training (Coadaptive.init mass t0).1 false t =
      Except.ok ({ user_mass := mass, start_time := t0, feedback_mode := PyVal.int 0 },
        [Cmd.set_feedback_mode (PyVal.int 0), Cmd.read_data Side.left,
         Cmd.read_data Side.right, Cmd.run_collins_profile Side.left true,
         Cmd.run_collins_profile Side.right true], true) := by
  rw [guided_training_closed]
  norm_num [Coadaptive.init]
  intro hc
  linarith

/-- C8 witness: construction at clock 40, first poll (without restart) at
clock 100. -/
theorem advance_without_restart_measures_witness :
    ((100 : ℚ) - 40 ≤ 300) ∧
    Coadaptive.guided_training (Coadaptive.init 70 40).1 false 100 =
      Except.ok ({ user_mass := 70, start_time := 40, feedback_mode := PyVal.int 0 },
        [Cmd.set_feedback_mode (PyVal.int 0), Cmd.read_data Side.left,
         Cmd.read_data Side.right, Cmd.run_collins_profile Side.left true,
         Cmd.run_collins_profile Side.right true], true) :=
  ⟨by norm_num,
    advance_without_restart_measures_from_construction 70 40 100 (by norm_num)⟩

/-- C9: on an ended tick (`check_time` returned the `ENDED` sentinel `-1`),
`guided_training` leaves the stored feedback mode unchanged at its last
dispatched value and issues exactly the two zero-current commands. -/
theorem guided_training_ended_frame (s : CtrlState) (restart_trial : Bool)
    (t : ℚ) (out : CtrlState × List Cmd × Bool)
    (h : Coadaptive.guided_training s restart_trial t = Except.ok out)
    (hend : out.2.2 = false) :
    out.1.feedback_mode = s.feedback_mode ∧
      out.2.1 = [Cmd.zero_current Side.left, Cmd.zero_current Side.right] := by
  obtain ⟨hout, -⟩ := guided_training_ended_inv s restart_trial t out h hend
  rw [hout]
  exact ⟨rfl, rfl⟩

/-- C9 witness: an ended tick at clock 700 (start time 0) with last dispatched
feedback mode 1 (strategy). -/
theorem guided_training_ended_frame_witness :
    ((⟨70, 0, PyVal.int 1⟩ : CtrlState),
        [Cmd.zero_current Side.left, Cmd.zero_current Side.right],
        false).1.feedback_mode = (⟨70, 0, PyVal.int 1⟩ : CtrlState).feedback_mode ∧
    ((⟨70, 0, PyVal.int 1⟩ : CtrlState),
        [Cmd.zero_current Side.left, Cmd.zero_current Side.right], false).2.1 =
      [Cmd.zero_current Side.left, Cmd.zero_current Side.right] :=
  guided_training_ended_frame ⟨70, 0, PyVal.int 1⟩ false 700
    ((⟨70, 0, PyVal.int 1⟩ : CtrlState),
      [Cmd.zero_current Side.left, Cmd.zero_current Side.right], false)
    (guided_training_ended_run ⟨70, 0, PyVal.int 1⟩ 700 (by norm_num)) rfl

lemma pyEqOne_iff (v : PyVal) :
    pyEqOne v = true ↔
      (v = PyVal.int 1 ∨ v = PyVal.float 1 ∨ v = PyVal.bool true) := by
  cases v <;> simp [pyEqOne]

/-- C10 counterexample: `use_torque = True` (a `bool`) and `use_torque = 1.0`
(a `float`) — neither of them the integer `1` — both satisfy Python's
`use_torque == 1`, so `trial_handler` runs the torque profile instead of
zeroing the current as the claim requires for every non-`int 1` value. -/
theorem trial_handler_true_torque_counterexample :
    (Coadaptive.trial_handler ⟨70, 0, PyVal.int (-1)⟩ (PyVal.int (-1))
        (PyVal.bool true)).2 =
      [Cmd.set_feedback_mode (PyVal.int (-1)), Cmd.read_data Side.left,
       Cmd.read_data Side.right, Cmd.run_collins_profile Side.left true,
       Cmd.run_collins_profile Side.right true] ∧
    (Coadaptive.trial_handler ⟨70, 0, PyVal.int (-1)⟩ (PyVal.int (-1))
        (PyVal.float 1)).2 =
      [Cmd.set_feedback_mode (PyVal.int (-1)), Cmd.read_data Side.left,
       Cmd.read_data Side.right, Cmd.run_collins_profile Side.left true,
       Cmd.run_collins_profile Side.right true] := by
  constructor
  · rfl
  · simp [Coadaptive.trial_handler, pyEqOne]

/-- C10 (amended): `trial_handler` runs the torque profile exactly when
`use_torque` compares equal to `1` under Python equality — the integer `1`,
the float `1.0` or the boolean `True` — and zeroes the current on both boots
for every other value (0, other numbers, strings, `False`). -/
theorem trial_handler_torque_condition (s : CtrlState) (fm ut : PyVal) :
    ((Coadaptive.trial_handler s fm ut).2 =
        [Cmd.set_feedback_mode fm, Cmd.read_data Side.left, Cmd.read_data Side.right,
         Cmd.run_collins_profile Side.left true, Cmd.run_collins_profile Side.right true] ↔
      (ut = PyVal.int 1 ∨ ut = PyVal.float 1 ∨ ut = PyVal.bool true)) ∧
    ((Coadaptive.trial_handler s fm ut).2 =
        [Cmd.set_feedback_mode fm, Cmd.read_data Side.left, Cmd.read_data Side.right,
         Cmd.zero_current Side.left, Cmd.zero_current Side.right] ↔
      ¬(ut = PyVal.int 1 ∨ ut = PyVal.float 1 ∨ ut = PyVal.bool true)) := by
  rw [← pyEqOne_iff]
  cases hpe : pyEqOne ut <;> simp [Coadaptive.trial_handler, hpe]
